import Mathlib

/-
Verification development for the filtering/smoothing/prediction engine of
`pydlm` (`pydlm/func/_dlm.py`), the stateful orchestrator class `_dlm`.

Modelling conventions for the shallow embedding:

* Python scalar slots (floats that may also hold `None`) are modelled as
  `Option ℚ` (`none` models Python `None`).  The numeric payloads produced by
  the external Kalman recursions are never computed by `_dlm.py` itself, so a
  rational stands in for an arbitrary matrix/vector/scalar payload.
* The external collaborators (`pydlm.base.kalmanFilter`, the component
  objects and `builder.updateEvaluation` from `pydlm.modeler.builder`) are
  repository code that is not part of this unit; they are abstracted as a
  `Collab` record of pure functions, per the spec's "external interfaces"
  section.
* Mutation of `self` is modelled by explicit state passing: each engine
  method maps a `DLM` to `DLM × Except Err ret`.  A Python `raise` returns
  `.error e` together with the (possibly already mutated) state, matching the
  fact that a raised exception leaves prior in-place mutations committed.
* Python list indexing/assignment `l[i]` and `l[i] = v` are modelled by
  `pyGet`/`pySet` with Python's negative-index wrap; the out-of-range case
  (an `IndexError` in Python) is modelled as a read of `none` / a no-op
  write, and theorems carry in-range hypotheses wherever indices matter.
* `matrix(...)` re-wrapping of the evaluation row is the identity here.
-/

/- A Python value slot: a scalar/vector/matrix payload or `None`. -/
abbrev Val := Option ℚ

/- Python index normalization on a list of length `len`: negative indices
   count from the end. -/
def pyIdx (len : ℕ) (i : ℤ) : ℤ :=
  if i < 0 then i + len else i

/- Python `l[i]` on a list of slots (negative indices wrap; reads of
   out-of-range indices, an `IndexError` in Python, yield `none`). -/
def pyGet (l : List Val) (i : ℤ) : Val :=
  if 0 ≤ pyIdx l.length i ∧ pyIdx l.length i < l.length then
    (l.get? (pyIdx l.length i).toNat).getD none
  else none

/- Python `l[i] = v` (negative indices wrap; out-of-range writes, an
   `IndexError` in Python, are modelled as no-ops). -/
def pySet (l : List Val) (i : ℤ) (v : Val) : List Val :=
  if 0 ≤ pyIdx l.length i ∧ pyIdx l.length i < l.length then
    l.set (pyIdx l.length i).toNat v
  else l

/- Python `range(a, b + 1)`: the integers `a, a+1, ..., b` (empty if `b < a`). -/
def intRange (a b : ℤ) : List ℤ :=
  (List.range (b + 1 - a).toNat).map (fun k : ℕ => a + (k : ℤ))

/- numpy row-slice assignment `row[lo : hi + 1] = feature`; the caller
   guarantees `feature.length = hi + 1 - lo` (numpy errors otherwise). -/
def setSlice (row : List Val) (lo hi : ℕ) (feature : List Val) : List Val :=
  row.take lo ++ feature ++ row.drop (hi + 1)

/- Python `l[-d:]` for `d ≥ 1`: the last `d` elements. -/
def lastN (l : List Val) (d : ℕ) : List Val :=
  l.drop (l.length - d)

/- A Python dict from component names to feature rows, as an insertion-ordered
   association list. -/
abbrev FeatDict := List (String × List Val)

def dictGet (fd : FeatDict) (k : String) : Option (List Val) :=
  fd.lookup k

/- Python `fd[k] = v`: overwrite in place if present, else append. -/
def dictSet (fd : FeatDict) (k : String) (v : List Val) : FeatDict :=
  if (fd.lookup k).isSome then
    fd.map (fun p => if p.1 = k then (k, v) else p)
  else fd ++ [(k, v)]

/- The errors the engine raises.  The source raises `NameError` with
   distinguishing messages for the first three (the spec's sequencing /
   range / feature taxonomy) and an (unintended) `AttributeError` at the
   `self.predictStatus` access in `_continuePredict`. -/
inductive Err where
  | sequencingError
  | rangeError
  | featureError
  | attributeError
deriving DecidableEq

/- The `save` argument of `_forwardFilter`: `'all'` or a specific index. -/
inductive Save where
  | all
  | idx (i : ℤ)
deriving DecidableEq

/- The nested one-step-ahead prediction sub-state of the model. -/
structure Prediction where
  obs : Val
  obsVar : Val
  state : Val
  sysVar : Val
  step : ℤ
deriving DecidableEq

/- The mutable linear-Gaussian model state (`builder.model`). -/
structure Model where
  obs : Val
  obsVar : Val
  noiseVar : Val
  df : Val
  state : Val
  sysVar : Val
  evaluation : List Val
  prediction : Prediction
deriving DecidableEq

/- A dynamic/automatic component as seen by this unit: a type tag, the lag
   order `d` (meaningful for `autoReg` components) and its self-generated
   feature row for a date (`comp.updateEvaluation(date); comp.evaluation`). -/
structure Component where
  componentType : String
  d : ℕ
  updateEvaluation : ℤ → List Val

/- The builder fields this unit reads.  The component registries are
   insertion-ordered, like Python dicts. -/
structure Builder where
  statePrior : Val
  sysVarPrior : Val
  noiseVar : Val
  renewTerm : ℚ
  dynamicComponents : List (String × Component)
  automaticComponents : List (String × Component)
  componentIndex : String → ℕ × ℕ
  model : Model

/- The `_result` ledger: fourteen index-aligned series plus the bookkeeping
   fields set in `_result.__init__`. -/
structure Result where
  filteredObs : List Val
  predictedObs : List Val
  smoothedObs : List Val
  filteredObsVar : List Val
  predictedObsVar : List Val
  smoothedObsVar : List Val
  noiseVar : List Val
  df : List Val
  filteredState : List Val
  predictedState : List Val
  smoothedState : List Val
  filteredCov : List Val
  predictedCov : List Val
  smoothedCov : List Val
  filteredSteps : ℤ × ℤ
  smoothedSteps : ℤ × ℤ
  filteredType : Option String
  predictStatus : Option (ℤ × ℤ × List Val)

/- `_result.__init__(n)`. -/
def Result.init (n : ℕ) : Result where
  filteredObs := List.replicate n none
  predictedObs := List.replicate n none
  smoothedObs := List.replicate n none
  filteredObsVar := List.replicate n none
  predictedObsVar := List.replicate n none
  smoothedObsVar := List.replicate n none
  noiseVar := List.replicate n none
  df := List.replicate n none
  filteredState := List.replicate n none
  predictedState := List.replicate n none
  smoothedState := List.replicate n none
  filteredCov := List.replicate n none
  predictedCov := List.replicate n none
  smoothedCov := List.replicate n none
  filteredSteps := (0, -1)
  smoothedSteps := (0, -1)
  filteredType := none
  predictStatus := none

/- Index `i` is a valid (Python-in-range, non-negative) position of every
   series that forward filtering reads and writes. -/
def Result.inRange (r : Result) (i : ℤ) : Prop :=
  0 ≤ i ∧ i < (r.filteredObs.length : ℤ) ∧ i < (r.predictedObs.length : ℤ)
    ∧ i < (r.filteredObsVar.length : ℤ) ∧ i < (r.predictedObsVar.length : ℤ)
    ∧ i < (r.filteredState.length : ℤ) ∧ i < (r.predictedState.length : ℤ)
    ∧ i < (r.filteredCov.length : ℤ) ∧ i < (r.predictedCov.length : ℤ)
    ∧ i < (r.noiseVar.length : ℤ) ∧ i < (r.df.length : ℤ)

instance (r : Result) (i : ℤ) : Decidable (r.inRange i) := by
  unfold Result.inRange
  infer_instance

/- The engine state: observed series, ledger and builder. -/
structure DLM where
  data : List Val
  result : Result
  builder : Builder

/- `self.n` (`len(data)`, fixed for the life of the model). -/
def DLM.n (s : DLM) : ℤ := (s.data.length : ℤ)

/-- Modelled from the spec: the external collaborators of the engine, which
live in this repository outside this unit.  `forwardFilterStep`,
`predictStep` and `backwardSmootherStep` are the three stateless Kalman
recursions of `pydlm.base.kalmanFilter`; `updateEvaluation` is
`builder.updateEvaluation(t)`, which regenerates the time-varying evaluation
row for time `t`; `initialPrediction` is the prediction sub-state produced by
`model.initializeObservation()` ("prediction sub-state reinitialized"). -/
structure Collab where
  forwardFilterStep : Model → Val → Model
  predictStep : Model → Model
  backwardSmootherStep : Model → Val → Val → Model
  updateEvaluation : ℤ → List Val
  initialPrediction : Prediction

/- `len(dynamicComponents) > 0 or len(automaticComponents) > 0`. -/
def hasVaryingComponents (s : DLM) : Bool :=
  s.builder.dynamicComponents.length > 0 || s.builder.automaticComponents.length > 0

/- The model-field part of `_resetModelStatus` (state, sysVar, noiseVar, df
   to priors, then `initializeObservation()`). -/
def resetModel (c : Collab) (s : DLM) (m : Model) : Model :=
  { m with
    state := s.builder.statePrior
    sysVar := s.builder.sysVarPrior
    noiseVar := s.builder.noiseVar
    df := some 1
    prediction := c.initialPrediction }

/- `_resetModelStatus`. -/
def _resetModelStatus (c : Collab) (s : DLM) : DLM :=
  { s with builder := { s.builder with model := resetModel c s s.builder.model } }

/- `_reverseCopy(model, result, step)`. -/
def _reverseCopy (model : Model) (result : Result) (step : ℤ) : Model :=
  { model with
    obs := pyGet result.filteredObs step
    obsVar := pyGet result.filteredObsVar step
    state := pyGet result.filteredState step
    sysVar := pyGet result.filteredCov step
    noiseVar := pyGet result.noiseVar step
    df := pyGet result.df step
    prediction := { model.prediction with
      obs := pyGet result.predictedObs step
      obsVar := pyGet result.predictedObsVar step
      state := pyGet result.predictedState step
      sysVar := pyGet result.predictedCov step } }

/- `_copy(model, result, step, filterType)`. -/
def _copy (model : Model) (result : Result) (step : ℤ) (filterType : String) : Result :=
  if filterType = "forwardFilter" then
    { result with
      filteredObs := pySet result.filteredObs step model.obs
      predictedObs := pySet result.predictedObs step model.prediction.obs
      filteredObsVar := pySet result.filteredObsVar step model.obsVar
      predictedObsVar := pySet result.predictedObsVar step model.prediction.obsVar
      filteredState := pySet result.filteredState step model.state
      predictedState := pySet result.predictedState step model.prediction.state
      filteredCov := pySet result.filteredCov step model.sysVar
      predictedCov := pySet result.predictedCov step model.prediction.sysVar
      noiseVar := pySet result.noiseVar step model.noiseVar
      df := pySet result.df step model.df }
  else if filterType = "backwardSmoother" then
    { result with
      smoothedState := pySet result.smoothedState step model.state
      smoothedObs := pySet result.smoothedObs step model.obs
      smoothedCov := pySet result.smoothedCov step model.sysVar
      smoothedObsVar := pySet result.smoothedObsVar step model.obsVar }
  else result

/- `_setModelStatus(date)`. -/
def _setModelStatus (c : Collab) (s : DLM) (date : ℤ) : DLM × Except Err Unit :=
  if date < s.result.filteredSteps.1 ∨ date > s.result.filteredSteps.2 then
    (s, .error .sequencingError)
  else
    let m := _reverseCopy s.builder.model s.result date
    let m := if hasVaryingComponents s then { m with evaluation := c.updateEvaluation date } else m
    ({ s with builder := { s.builder with model := m } }, .ok ())

/- The renewal guard of the filter loop:
   `renew and step - lastRenewPoint > renewTerm and renewTerm > 0.0`. -/
def renewNeeded (s : DLM) (renew : Bool) (t lastRenewPoint : ℤ) : Bool :=
  renew && decide (((t - lastRenewPoint : ℤ) : ℚ) > s.builder.renewTerm)
        && decide (s.builder.renewTerm > 0)

/- The renewal replay: `for innerStep in range(step - int(renewTerm), step):
   Filter.forwardFilter(model, data[innerStep])`. -/
def renewReplay (c : Collab) (data : List Val) : List ℤ → Model → Model
  | [], m => m
  | t :: rest, m => renewReplay c data rest (c.forwardFilterStep m (pyGet data t))

/- One iteration of the `_forwardFilter` loop body for index `t`, threading
   the model, `lastRenewPoint` and the ledger.  For `renewTerm ≥ 0` Python's
   `int(renewTerm)` is the floor. -/
def ffStep1 (c : Collab) (s : DLM) (renew : Bool) (save : Save) (t : ℤ)
    (m : Model) (lastRenewPoint : ℤ) (r : Result) : Model × ℤ × Result :=
  let m1 := if hasVaryingComponents s then { m with evaluation := c.updateEvaluation t } else m
  let m2 := if renewNeeded s renew t lastRenewPoint then
              renewReplay c s.data (intRange (t - ⌊s.builder.renewTerm⌋) (t - 1))
                (resetModel c s m1)
            else m1
  let lrp2 := if renewNeeded s renew t lastRenewPoint then t else lastRenewPoint
  let m3 := c.forwardFilterStep m2 (pyGet s.data t)
  let r2 := if save = Save.all ∨ save = Save.idx t then _copy m3 r t "forwardFilter" else r
  (m3, lrp2, r2)

/- The `_forwardFilter` loop over `range(start, end + 1)`. -/
def ffLoop (c : Collab) (s : DLM) (renew : Bool) (save : Save) :
    List ℤ → Model → ℤ → Result → Model × Result
  | [], m, _, r => (m, r)
  | t :: rest, m, lrp, r =>
    ffLoop c s renew save rest (ffStep1 c s renew save t m lrp r).1
      (ffStep1 c s renew save t m lrp r).2.1 (ffStep1 c s renew save t m lrp r).2.2

/- Running the `_forwardFilter` loop from an initialized state (after the
   reset/restore phase), with `lastRenewPoint = start`. -/
def ffRun (c : Collab) (s : DLM) (start e : ℤ) (save : Save) (renew : Bool) : DLM :=
  let p := ffLoop c s renew save (intRange start e) s.builder.model start s.result
  { s with builder := { s.builder with model := p.1 }, result := p.2 }

/- `_forwardFilter(start, end, save, ForgetPrevious, renew)`; `end = None`
   defaults to `n - 1`. -/
def _forwardFilter (c : Collab) (s : DLM) (start : ℤ) (endDate : Option ℤ)
    (save : Save) (ForgetPrevious renew : Bool) : DLM × Except Err Unit :=
  let e := endDate.getD (s.n - 1)
  if start > e then (s, .ok ())
  else if start = 0 ∨ ForgetPrevious = true then
    (ffRun c (_resetModelStatus c s) start e save renew, .ok ())
  else if start > s.result.filteredSteps.2 + 1 then
    (s, .error .sequencingError)
  else
    match _setModelStatus c s (start - 1) with
    | (s1, .error err) => (s1, .error err)
    | (s1, .ok _) => (ffRun c s1 start e save renew, .ok ())

/- The smoothing end index of `_backwardSmoother`:
   `end = 0` when `days` is unspecified, else `max(start - days + 1, 0)`. -/
def smootherEnd (start : ℤ) (days : Option ℤ) : ℤ :=
  match days with
  | none => 0
  | some d => max (start - d + 1) 0

/- The model update of one `_backwardSmoother` loop iteration for index
   `day`: restore the one-step-ahead moments recorded when `day + 1` was
   filtered, refresh the evaluation if time-varying, then apply the
   backward-smoothing recursion against the filtered moments at `day`. -/
def bsModel (c : Collab) (s0 : DLM) (day : ℤ) (m : Model) (r : Result) : Model :=
  let m1 := { m with prediction := { m.prediction with
                state := pyGet r.predictedState (day + 1)
                sysVar := pyGet r.predictedCov (day + 1) } }
  let m2 := if hasVaryingComponents s0 then { m1 with evaluation := c.updateEvaluation day }
            else m1
  c.backwardSmootherStep m2 (pyGet r.filteredState day) (pyGet r.filteredCov day)

/- The `_backwardSmoother` loop body over the descending date list. -/
def bsLoop (c : Collab) (s0 : DLM) : List ℤ → Model → Result → Model × Result
  | [], m, r => (m, r)
  | day :: rest, m, r =>
    bsLoop c s0 rest (bsModel c s0 day m r) (_copy (bsModel c s0 day m r) r day "backwardSmoother")

/- The boundary writes of `_backwardSmoother`: the smoothed snapshot at
   `start` is set to the filtered snapshot at `start`. -/
def bsBoundaryResult (s : DLM) (start : ℤ) : Result :=
  { s.result with
    smoothedState := pySet s.result.smoothedState start (pyGet s.result.filteredState start)
    smoothedObs := pySet s.result.smoothedObs start (pyGet s.result.filteredObs start)
    smoothedCov := pySet s.result.smoothedCov start (pyGet s.result.filteredCov start)
    smoothedObsVar := pySet s.result.smoothedObsVar start (pyGet s.result.filteredObsVar start) }

/- `_backwardSmoother(start, days, ignoreFuture)`; `start = None` defaults to
   `n - 1`. -/
def _backwardSmoother (c : Collab) (s : DLM) (startDate days : Option ℤ)
    (ignoreFuture : Bool) : DLM × Except Err Unit :=
  let start := startDate.getD (s.n - 1)
  let e := smootherEnd start days
  if s.result.filteredSteps.2 < start then (s, .error .sequencingError)
  else
    let m0 := s.builder.model
    let r1 := if start = s.n - 1 ∨ ignoreFuture = true then bsBoundaryResult s start
      else s.result
    let m1 := if start = s.n - 1 ∨ ignoreFuture = true then
        { m0 with noiseVar := pyGet s.result.noiseVar start }
      else
        { m0 with noiseVar := pyGet s.result.noiseVar (s.n - 1) }
    let start1 := if start = s.n - 1 ∨ ignoreFuture = true then start - 1 else start
    if start1 < e then
      ({ s with result := r1, builder := { s.builder with model := m1 } }, .ok ())
    else
      let m2 := { m1 with
        state := pyGet r1.smoothedState (start1 + 1)
        sysVar := pyGet r1.smoothedCov (start1 + 1) }
      let p := bsLoop c s ((intRange e start1).reverse) m2 r1
      ({ s with result := p.2, builder := { s.builder with model := p.1 } }, .ok ())

/- The model update of one `_predictInSample` loop iteration for forecast
   step `i`: refresh the evaluation for `date + i` if time-varying, then
   apply the one-step predict recursion. -/
def pisModel (c : Collab) (s : DLM) (date i : ℤ) (m : Model) : Model :=
  c.predictStep
    (if hasVaryingComponents s then { m with evaluation := c.updateEvaluation (date + i) } else m)

/- The `_predictInSample` loop over `range(1, days)`, writing
   `predictedObs[i - 1]` and `predictedObsVar[i - 1]` per step. -/
def pisLoop (c : Collab) (s : DLM) (date : ℤ) :
    List ℤ → Model → List Val → List Val → Model × List Val × List Val
  | [], m, po, pv => (m, po, pv)
  | i :: rest, m, po, pv =>
    pisLoop c s date rest (pisModel c s date i m)
      (pySet po (i - 1) (pisModel c s date i m).prediction.obs)
      (pySet pv (i - 1) (pisModel c s date i m).prediction.obsVar)

/- `_predictInSample(date, days)`. -/
def _predictInSample (c : Collab) (s : DLM) (date : ℤ) (days : ℤ) :
    DLM × Except Err (List Val × List Val) :=
  if date + days > s.n - 1 then (s, .error .rangeError)
  else
    match _setModelStatus c s date with
    | (s1, .error e) => (s1, .error e)
    | (s1, .ok _) =>
      let po := List.replicate days.toNat (none : Val)
      let pv := List.replicate days.toNat (none : Val)
      let m := { s1.builder.model with
                 prediction := { s1.builder.model.prediction with step := 0 } }
      let p := pisLoop c s1 date (intRange 1 (days - 1)) m po pv
      ({ s1 with builder := { s1.builder with model := p.1 } }, .ok (p.2.1, p.2.2))

/- The component loop of `_constructEvaluationForPrediction`: write the
   override slice if the dict has one, else regenerate the component's default
   feature for `date`; raise a feature error if neither is available.  The
   returned row is the evaluation as mutated so far (Python mutates it slice
   by slice in place, so the mutations made before a raise are committed). -/
def applyComps (compIndex : String → ℕ × ℕ) (fd : FeatDict) (date : Option ℤ) :
    List (String × Component) → List Val → List Val × Option Err
  | [], ev => (ev, none)
  | (name, comp) :: rest, ev =>
    match dictGet fd name with
    | some feature =>
      applyComps compIndex fd date rest
        (setSlice ev (compIndex name).1 (compIndex name).2 feature)
    | none =>
      match date with
      | none => (ev, some .featureError)
      | some dt =>
        applyComps compIndex fd date rest
          (setSlice ev (compIndex name).1 (compIndex name).2 (comp.updateEvaluation dt))

/- Commit a (possibly partially updated) evaluation row into the model. -/
def withEvaluation (s : DLM) (ev : List Val) : DLM :=
  { s with builder := { s.builder with model := { s.builder.model with evaluation := ev } } }

/- `_constructEvaluationForPrediction(featureDict, date)`.  The trailing
   `matrix(...)` re-wrap is the identity here. -/
def _constructEvaluationForPrediction (c : Collab) (s : DLM)
    (featureDict : Option FeatDict) (date : Option ℤ) : DLM × Except Err Unit :=
  match featureDict with
  | none =>
    match date with
    | none => (s, .error .featureError)
    | some dt => (withEvaluation s (c.updateEvaluation dt), .ok ())
  | some fd =>
    let p1 := applyComps s.builder.componentIndex fd date s.builder.dynamicComponents
                s.builder.model.evaluation
    match p1.2 with
    | some e => (withEvaluation s p1.1, .error e)
    | none =>
      let p2 := applyComps s.builder.componentIndex fd date s.builder.automaticComponents p1.1
      match p2.2 with
      | some e => (withEvaluation s p2.1, .error e)
      | none => (withEvaluation s p2.1, .ok ())

/- `_oneDayAheadPredict(date, featureDict)`. -/
def _oneDayAheadPredict (c : Collab) (s : DLM) (date : ℤ)
    (featureDict : Option FeatDict) : DLM × Except Err (Val × Val) :=
  if date > s.n - 1 then (s, .error .rangeError)
  else
    match _setModelStatus c s date with
    | (s1, .error e) => (s1, .error e)
    | (s1, .ok _) =>
      match _constructEvaluationForPrediction c s1 featureDict (some (date + 1)) with
      | (s2, .error e) => (s2, .error e)
      | (s2, .ok _) =>
        let m := { s2.builder.model with
                   prediction := { s2.builder.model.prediction with step := 0 } }
        let m := c.predictStep m
        let r := { s2.result with predictStatus := some (date, date + 1, [m.prediction.obs]) }
        ({ s2 with result := r, builder := { s2.builder with model := m } },
         .ok (m.prediction.obs, m.prediction.obsVar))

/- The automatic-component loop of `_continuePredict`, building the feature
   dict for `autoReg` components from the forecast sequence held by the
   cursor.  In the short-history branch the source reads
   `self.predictStatus[2]` — but the engine object has no attribute
   `predictStatus` (the cursor lives at `self.result.predictStatus`), so
   Python raises `AttributeError` there, before `feature` is computed. -/
def arFeatures (predictSeq : List Val) :
    List (String × Component) → Option FeatDict → Except Err (Option FeatDict)
  | [], fd => .ok fd
  | (name, comp) :: rest, fd =>
    if comp.componentType ≠ "autoReg" then arFeatures predictSeq rest fd
    else if predictSeq.length ≥ comp.d then
      let feature := lastN predictSeq comp.d
      arFeatures predictSeq rest (some (dictSet (fd.getD []) name feature))
    else .error .attributeError

/- `_continuePredict(featureDict)`. -/
def _continuePredict (c : Collab) (s : DLM) (featureDict : Option FeatDict) :
    DLM × Except Err (Val × Val) :=
  match s.result.predictStatus with
  | none => (s, .error .sequencingError)
  | some ps =>
    let currentDate := ps.2.1
    match arFeatures ps.2.2 s.builder.automaticComponents featureDict with
    | .error e => (s, .error e)
    | .ok fd =>
      match _constructEvaluationForPrediction c s fd (some (currentDate + 1)) with
      | (s1, .error e) => (s1, .error e)
      | (s1, .ok _) =>
        let m := c.predictStep s1.builder.model
        let r := { s1.result with
                   predictStatus := some (ps.1, currentDate + 1, ps.2.2 ++ [m.prediction.obs]) }
        ({ s1 with result := r, builder := { s1.builder with model := m } },
         .ok (m.prediction.obs, m.prediction.obsVar))

/- `m` successive `_continuePredict()` calls (no feature overrides), `none`
   as soon as one of them raises. -/
def contN (c : Collab) : ℕ → DLM → Option DLM
  | 0, s => some s
  | k + 1, s =>
    match contN c k s with
    | none => none
    | some s1 =>
      match _continuePredict c s1 none with
      | (s2, .ok _) => some s2
      | (_, .error _) => none

/- ------------------------------------------------------------------ -/
/- Concrete fixtures used by counterexamples and witnesses.            -/
/- ------------------------------------------------------------------ -/

def noPrediction : Prediction where
  obs := none
  obsVar := none
  state := none
  sysVar := none
  step := 0

def baseModel : Model where
  obs := none
  obsVar := none
  noiseVar := none
  df := none
  state := none
  sysVar := none
  evaluation := [some 0, some 0]
  prediction := noPrediction

/- A concrete collaborator instantiation (the claims under check are
   bookkeeping facts, independent of the numeric recursions). -/
def idCollab : Collab where
  forwardFilterStep := fun m _ => m
  predictStep := fun m =>
    { m with prediction :=
      { m.prediction with
        obs := some 7
        obsVar := some 8
        step := m.prediction.step + 1 } }
  backwardSmootherStep := fun m _ _ => m
  updateEvaluation := fun _ => [some 0, some 0]
  initialPrediction := noPrediction

def baseBuilder : Builder where
  statePrior := some 0
  sysVarPrior := some 1
  noiseVar := some 1
  renewTerm := 0
  dynamicComponents := []
  automaticComponents := []
  componentIndex := fun _ => (0, 0)
  model := baseModel

def baseData : List Val := [some 1, some 2, some 3, some 4, some 5]

/- A freshly initialized engine over a five-point series. -/
def baseDLM : DLM where
  data := baseData
  result := Result.init 5
  builder := baseBuilder

/- A ledger as it stands after the whole series `[0, 4]` has been filtered
   (filled with distinct values so the identities checked below are not
   vacuous). -/
def filledResult : Result where
  filteredObs := [some 1, some 2, some 3, some 4, some 5]
  predictedObs := [some 11, some 12, some 13, some 14, some 15]
  smoothedObs := [some 21, some 22, some 23, some 24, some 25]
  filteredObsVar := [some 31, some 32, some 33, some 34, some 35]
  predictedObsVar := [some 41, some 42, some 43, some 44, some 45]
  smoothedObsVar := [some 51, some 52, some 53, some 54, some 55]
  noiseVar := [some 61, some 62, some 63, some 64, some 65]
  df := [some 71, some 72, some 73, some 74, some 75]
  filteredState := [some 81, some 82, some 83, some 84, some 85]
  predictedState := [some 91, some 92, some 93, some 94, some 95]
  smoothedState := [some 101, some 102, some 103, some 104, some 105]
  filteredCov := [some 111, some 112, some 113, some 114, some 115]
  predictedCov := [some 121, some 122, some 123, some 124, some 125]
  smoothedCov := [some 131, some 132, some 133, some 134, some 135]
  filteredSteps := (0, 4)
  smoothedSteps := (0, -1)
  filteredType := none
  predictStatus := none

/- The engine after filtering the whole series. -/
def filteredDLM : DLM where
  data := baseData
  result := filledResult
  builder := baseBuilder

/- Two one-slot dynamic components for the partial-mutation counterexample:
   `a` occupies evaluation slot 0, `b` occupies slot 1. -/
def compA : Component where
  componentType := "dynamic"
  d := 0
  updateEvaluation := fun _ => [some 100]

def compB : Component where
  componentType := "dynamic"
  d := 0
  updateEvaluation := fun _ => [some 200]

def twoCompIndex : String → ℕ × ℕ := fun name =>
  if name = "a" then (0, 0) else (1, 1)

def twoCompDLM : DLM where
  data := baseData
  result := filledResult
  builder := { baseBuilder with
    dynamicComponents := [("a", compA), ("b", compB)]
    componentIndex := twoCompIndex }

/- An automatic autoregressive component with lag order 2, for the
   `_continuePredict` short-history branch. -/
def arComp : Component where
  componentType := "autoReg"
  d := 2
  updateEvaluation := fun _ => [some 0, some 0]

/- An engine holding an active forecast cursor whose forecast sequence
   (length 1) is shorter than the lag order 2. -/
def arDLM : DLM where
  data := baseData
  result := { filledResult with predictStatus := some (2, 3, [some 9]) }
  builder := { baseBuilder with
    automaticComponents := [("ar", arComp)]
    componentIndex := fun _ => (0, 1) }

/- ------------------------------------------------------------------ -/
/- Helper lemmas about the Python list primitives.                     -/
/- ------------------------------------------------------------------ -/

theorem set_of_get? {α : Type} (l : List α) :
    ∀ (n : ℕ) (a : α), l.get? n = some a → l.set n a = l := by
  induction l with
  | nil => intro n a h; simp at h
  | cons x xs ih =>
    intro n a h
    cases n with
    | zero => simp at h; simp [h]
    | succ k =>
      simp only [List.get?_cons_succ] at h
      simp only [List.set_cons_succ, List.cons.injEq, true_and]
      exact ih k a h

theorem pyIdx_of_nonneg (len : ℕ) (i : ℤ) (h : 0 ≤ i) : pyIdx len i = i :=
  if_neg (by omega)

theorem length_pySet (l : List Val) (i : ℤ) (v : Val) :
    (pySet l i v).length = l.length := by
  unfold pySet; split <;> simp

theorem pyGet_nonneg (l : List Val) (i : ℤ) (h0 : 0 ≤ i) (h1 : i < (l.length : ℤ)) :
    pyGet l i = (l.get? i.toNat).getD none := by
  unfold pyGet
  rw [pyIdx_of_nonneg _ _ h0, if_pos ⟨h0, h1⟩]

theorem pySet_nonneg (l : List Val) (i : ℤ) (v : Val) (h0 : 0 ≤ i)
    (h1 : i < (l.length : ℤ)) : pySet l i v = l.set i.toNat v := by
  unfold pySet
  rw [pyIdx_of_nonneg _ _ h0, if_pos ⟨h0, h1⟩]

theorem pyGet_pySet_self (l : List Val) (i : ℤ) (v : Val) (h0 : 0 ≤ i)
    (h1 : i < (l.length : ℤ)) : pyGet (pySet l i v) i = v := by
  rw [pySet_nonneg l i v h0 h1]
  have hlen : ((l.set i.toNat v).length : ℤ) = (l.length : ℤ) := by simp
  rw [pyGet_nonneg _ i h0 (by omega)]
  rw [List.get?_set_eq_of_lt _ (by omega)]
  rfl

theorem pyGet_pySet_ne (l : List Val) (i j : ℤ) (v : Val) (hi : 0 ≤ i) (hj : 0 ≤ j)
    (hne : i ≠ j) : pyGet (pySet l j v) i = pyGet l i := by
  by_cases hjr : j < (l.length : ℤ)
  · rw [pySet_nonneg l j v hj hjr]
    by_cases hir : i < (l.length : ℤ)
    · rw [pyGet_nonneg _ i hi (by simp; omega), pyGet_nonneg l i hi hir]
      rw [List.get?_set_ne _ _ (by omega)]
    · unfold pyGet
      rw [pyIdx_of_nonneg _ _ hi, pyIdx_of_nonneg _ _ hi]
      rw [if_neg (by simp; omega), if_neg (by omega)]
  · unfold pySet
    rw [pyIdx_of_nonneg _ _ hj, if_neg (by omega)]

theorem pySet_pyGet_self (l : List Val) (i : ℤ) (h0 : 0 ≤ i)
    (h1 : i < (l.length : ℤ)) : pySet l i (pyGet l i) = l := by
  have hn : i.toNat < l.length := by omega
  rw [pyGet_nonneg l i h0 h1, pySet_nonneg _ i _ h0 h1]
  rw [List.get?_eq_get hn]
  exact set_of_get? l i.toNat _ (List.get?_eq_get hn)

theorem mem_intRange {j a b : ℤ} (h : j ∈ intRange a b) : a ≤ j ∧ j ≤ b := by
  unfold intRange at h
  rcases List.mem_map.mp h with ⟨k, hk, rfl⟩
  have hk2 : k < (b + 1 - a).toNat := List.mem_range.mp hk
  omega

/- ------------------------------------------------------------------ -/
/- Preservation lemmas about the engine operations.                    -/
/- ------------------------------------------------------------------ -/

theorem copy_filteredSteps (m : Model) (r : Result) (step : ℤ) (ft : String) :
    (_copy m r step ft).filteredSteps = r.filteredSteps := by
  unfold _copy
  split
  · rfl
  split <;> rfl

theorem setModelStatus_result (c : Collab) (s : DLM) (d : ℤ) :
    ((_setModelStatus c s d).1).result = s.result := by
  unfold _setModelStatus
  split <;> rfl

theorem setModelStatus_data (c : Collab) (s : DLM) (d : ℤ) :
    ((_setModelStatus c s d).1).data = s.data := by
  unfold _setModelStatus
  split <;> rfl

theorem setModelStatus_ok (c : Collab) (s : DLM) (d : ℤ)
    (h1 : s.result.filteredSteps.1 ≤ d) (h2 : d ≤ s.result.filteredSteps.2) :
    (_setModelStatus c s d).2 = .ok () := by
  unfold _setModelStatus
  rw [if_neg (by omega)]

theorem setModelStatus_error (c : Collab) (s : DLM) (d : ℤ) (e : Err)
    (h : (_setModelStatus c s d).2 = .error e) : e = .sequencingError := by
  unfold _setModelStatus at h
  split at h
  · exact (Except.error.inj h).symm
  · exact absurd h (by simp)

theorem ffLoop_filteredSteps (c : Collab) (s : DLM) (rn : Bool) (sv : Save) :
    ∀ (ts : List ℤ) (m : Model) (lrp : ℤ) (r : Result),
      ((ffLoop c s rn sv ts m lrp r).2).filteredSteps = r.filteredSteps := by
  intro ts
  induction ts with
  | nil => intro m lrp r; rfl
  | cons t rest ih =>
    intro m lrp r
    show ((ffLoop c s rn sv rest _ _ _).2).filteredSteps = _
    rw [ih]
    simp only [ffStep1]
    split
    · rw [copy_filteredSteps]
    · rfl

/-- C1, amended: `_forwardFilter` itself never modifies `filteredSteps` —
after any call (any series, any arguments, error or not) the ledger's
`filteredSteps` pair is exactly what it was before the call; in particular it
does not become `(0, end)` after filtering `[start, end]`, and re-filtering
`[0, k]` with `ForgetPrevious` set leaves it unchanged as well (the
`self.result.filteredSteps = (0, end)` assignment in the source is commented
out; maintaining the bound is left to the callers of this engine). -/
theorem forwardFilter_filteredSteps_unchanged (c : Collab) (s : DLM) (start : ℤ)
    (endDate : Option ℤ) (save : Save) (fg rn : Bool) :
    ((_forwardFilter c s start endDate save fg rn).1).result.filteredSteps
      = s.result.filteredSteps := by
  obtain ⟨e, he⟩ : ∃ e, endDate.getD (s.n - 1) = e := ⟨_, rfl⟩
  simp only [_forwardFilter, he]
  split
  · rfl
  split
  · show ((ffRun c (_resetModelStatus c s) start e save rn)).result.filteredSteps = _
    simp only [ffRun]
    rw [ffLoop_filteredSteps]
    rfl
  split
  · rfl
  · rcases hm : _setModelStatus c s (start - 1) with ⟨s1, er⟩
    have hr : s1.result = s.result := by
      have h0 := setModelStatus_result c s (start - 1)
      rw [hm] at h0
      exact h0
    cases er with
    | error err =>
      show s1.result.filteredSteps = s.result.filteredSteps
      rw [hr]
    | ok a =>
      show ((ffRun c s1 start e save rn)).result.filteredSteps = _
      simp only [ffRun]
      rw [ffLoop_filteredSteps]
      rw [hr]

/-- C1, counterexample: filtering the whole range `[0, 2]` of a fresh
three-step engine leaves `filteredSteps` at the empty-range sentinel
`(0, -1)`; it does not become `(0, end)`, so the upper bound did not grow by
the number of newly filtered indices. -/
theorem forwardFilter_filteredSteps_cex :
    ((_forwardFilter idCollab baseDLM 0 (some 2) Save.all false false).1).result.filteredSteps
        = (0, -1)
      ∧ ((0 : ℤ), (-1 : ℤ)) ≠ ((0 : ℤ), (2 : ℤ)) := by
  exact ⟨rfl, by decide⟩

/-- C2: the short-history branch of `_continuePredict` crashes instead of
backfilling.  On an engine whose forecast cursor holds a length-1 forecast
sequence and whose automatic `autoReg` component has lag order `d = 2`, the
call hits `comp.d - len(self.predictStatus[2])` — the engine object has no
attribute `predictStatus` (the cursor lives at `self.result.predictStatus`),
so Python raises `AttributeError` and no lag feature is built; the state is
returned unchanged. -/
theorem continuePredict_short_history_attribute_error :
    _continuePredict idCollab arDLM none = (arDLM, .error .attributeError) := rfl

/-- C7, amended: the contract holds for calls that do work, i.e. with
`start ≤ end` (when `start > end` the call returns as a no-op before any
check, so no sequencing error is raised even with a gap).  For `start ≥ 1`,
`ForgetPrevious` false, `start ≤ end` and `filteredSteps = (0, hi)`: if
`start > hi + 1` the call raises the sequencing error with the state
unchanged; otherwise `_setModelStatus(start - 1)` succeeds — ModelState is
restored from the ledger snapshot at `start - 1` — and the call is exactly
the per-step filter loop run from that restored state. -/
theorem forwardFilter_init_phase (c : Collab) (s : DLM) (start e hi : ℤ)
    (save : Save) (rn : Bool)
    (h1 : 1 ≤ start) (h2 : s.result.filteredSteps = (0, hi)) (h3 : start ≤ e) :
    (start > hi + 1 →
      _forwardFilter c s start (some e) save false rn = (s, .error .sequencingError)) ∧
    (start ≤ hi + 1 →
      (_setModelStatus c s (start - 1)).2 = .ok () ∧
      _forwardFilter c s start (some e) save false rn
        = (ffRun c ((_setModelStatus c s (start - 1)).1) start e save rn, .ok ())) := by
  constructor
  · intro hgt
    simp only [_forwardFilter, Option.getD]
    rw [if_neg (by omega), if_neg (by simp; omega), if_pos (by rw [h2]; exact hgt)]
  · intro hle
    have hok : (_setModelStatus c s (start - 1)).2 = .ok () := by
      apply setModelStatus_ok
      · rw [h2]; omega
      · rw [h2]; omega
    refine ⟨hok, ?_⟩
    simp only [_forwardFilter, Option.getD]
    rw [if_neg (by omega), if_neg (by simp; omega), if_neg (by rw [h2]; omega)]
    rcases hm : _setModelStatus c s (start - 1) with ⟨s1, er⟩
    have her : er = .ok () := by rw [hm] at hok; exact hok
    subst her
    rfl

/-- C7, counterexample: with the empty filtered range `(0, -1)`, a call with
`start = 5 > filteredSteps[1] + 1 = 0` but `start > end` (`end = 3`) raises
nothing — it returns `None` — contradicting the claim that every such call
raises a sequencing error. -/
theorem forwardFilter_init_phase_cex :
    ((5 : ℤ) > baseDLM.result.filteredSteps.2 + 1)
      ∧ _forwardFilter idCollab baseDLM 5 (some 3) Save.all false false
          = (baseDLM, .ok ()) := ⟨by decide, rfl⟩

/-- C7, witness instantiation of the amended theorem. -/
theorem forwardFilter_init_phase_witness :
    ((3 : ℤ) > 4 + 1 →
      _forwardFilter idCollab filteredDLM 3 (some 4) Save.all false false
        = (filteredDLM, .error .sequencingError)) ∧
    ((3 : ℤ) ≤ 4 + 1 →
      (_setModelStatus idCollab filteredDLM (3 - 1)).2 = .ok () ∧
      _forwardFilter idCollab filteredDLM 3 (some 4) Save.all false false
        = (ffRun idCollab ((_setModelStatus idCollab filteredDLM (3 - 1)).1) 3 4 Save.all false,
           .ok ())) :=
  forwardFilter_init_phase idCollab filteredDLM 3 4 4 Save.all false
    (by decide) rfl (by decide)

/-- C5, counterexample: on the five-point series (`n = 5`), `date = 2` and
`days = 3` satisfy `date + days ≤ n`, yet `_predictInSample` raises the
range error (the source checks `date + days > n - 1`, not `> n`). -/
theorem predictInSample_range_cex :
    ((2 : ℤ) + 3 ≤ filteredDLM.n)
      ∧ (_predictInSample idCollab filteredDLM 2 3).2 = .error .rangeError :=
  ⟨by decide, rfl⟩

/-- C5, amended: `_predictInSample(date, days)` raises the range error iff
`date + days` exceeds `n - 1` (equivalently, iff `date + days ≥ n`); below
that bound no range error is ever raised (a sequencing error may still arise
from restoring an unfiltered date, but never the range error). -/
theorem predictInSample_range_error_iff (c : Collab) (s : DLM) (date days : ℤ) :
    (_predictInSample c s date days).2 = .error .rangeError ↔ date + days > s.n - 1 := by
  unfold _predictInSample
  by_cases hc : date + days > s.n - 1
  · rw [if_pos hc]
    simp [hc]
  · rw [if_neg hc]
    rcases hm : _setModelStatus c s date with ⟨s1, er⟩
    cases er with
    | error e =>
      have he : e = .sequencingError := setModelStatus_error c s date e (by rw [hm])
      subst he
      simp [hc]
    | ok a =>
      simp [hc]

theorem pyGet_replicate_none (n : ℕ) (i : ℤ) :
    pyGet (List.replicate n (none : Val)) i = none := by
  unfold pyGet
  split
  · rcases h : (List.replicate n (none : Val)).get?
        (pyIdx (List.replicate n (none : Val)).length i).toNat with _ | a
    · rfl
    · have ha : a = none := List.eq_of_mem_replicate (List.get?_mem h)
      rw [ha]
      rfl
  · rfl

theorem copy_ff_eq (m : Model) (r : Result) (step : ℤ) :
    _copy m r step "forwardFilter"
      = { r with
          filteredObs := pySet r.filteredObs step m.obs
          predictedObs := pySet r.predictedObs step m.prediction.obs
          filteredObsVar := pySet r.filteredObsVar step m.obsVar
          predictedObsVar := pySet r.predictedObsVar step m.prediction.obsVar
          filteredState := pySet r.filteredState step m.state
          predictedState := pySet r.predictedState step m.prediction.state
          filteredCov := pySet r.filteredCov step m.sysVar
          predictedCov := pySet r.predictedCov step m.prediction.sysVar
          noiseVar := pySet r.noiseVar step m.noiseVar
          df := pySet r.df step m.df } := rfl

theorem copy_bs_eq (m : Model) (r : Result) (step : ℤ) :
    _copy m r step "backwardSmoother"
      = { r with
          smoothedState := pySet r.smoothedState step m.state
          smoothedObs := pySet r.smoothedObs step m.obs
          smoothedCov := pySet r.smoothedCov step m.sysVar
          smoothedObsVar := pySet r.smoothedObsVar step m.obsVar } := rfl

theorem pisLoop_shape (c : Collab) (s : DLM) (date days : ℤ) :
    ∀ (ts : List ℤ) (m : Model) (po pv : List Val),
      (∀ i ∈ ts, 1 ≤ i ∧ i ≤ days - 1) →
      (pisLoop c s date ts m po pv).2.1.length = po.length
        ∧ (pisLoop c s date ts m po pv).2.2.length = pv.length
        ∧ pyGet (pisLoop c s date ts m po pv).2.1 (days - 1) = pyGet po (days - 1)
        ∧ pyGet (pisLoop c s date ts m po pv).2.2 (days - 1) = pyGet pv (days - 1) := by
  intro ts
  induction ts with
  | nil => intro m po pv _; exact ⟨rfl, rfl, rfl, rfl⟩
  | cons i rest ih =>
    intro m po pv hmem
    have hi := hmem i (List.mem_cons_self i rest)
    have hrest : ∀ j ∈ rest, 1 ≤ j ∧ j ≤ days - 1 :=
      fun j hj => hmem j (List.mem_cons_of_mem i hj)
    obtain ⟨l1, l2, g1, g2⟩ := ih (pisModel c s date i m)
      (pySet po (i - 1) (pisModel c s date i m).prediction.obs)
      (pySet pv (i - 1) (pisModel c s date i m).prediction.obsVar) hrest
    simp only [pisLoop]
    refine ⟨?_, ?_, ?_, ?_⟩
    · rw [l1, length_pySet]
    · rw [l2, length_pySet]
    · rw [g1, pyGet_pySet_ne _ _ _ _ (by omega) (by omega) (by omega)]
    · rw [g2, pyGet_pySet_ne _ _ _ _ (by omega) (by omega) (by omega)]

/-- C4, amended: for a filtered `date` with `date + days ≤ n - 1`,
`_predictInSample(date, days)` succeeds and returns lists of length `days`
(not `days - 1`): the prediction step counter is reset to 0, forecast steps
`1 .. days - 1` are iterated into positions `0 .. days - 2`, and the final
slot of each returned list is never written and remains `None`. -/
theorem predictInSample_result_shape (c : Collab) (s : DLM) (date days : ℤ)
    (h1 : s.result.filteredSteps.1 ≤ date) (h2 : date ≤ s.result.filteredSteps.2)
    (h3 : date + days ≤ s.n - 1) :
    ∃ s1 po pv, _predictInSample c s date days = (s1, .ok (po, pv))
      ∧ po.length = days.toNat ∧ pv.length = days.toNat
      ∧ pyGet po (days - 1) = none ∧ pyGet pv (days - 1) = none := by
  have hok := setModelStatus_ok c s date h1 h2
  unfold _predictInSample
  rw [if_neg (by omega)]
  rcases hm : _setModelStatus c s date with ⟨s1, er⟩
  have her : er = .ok () := by rw [hm] at hok; exact hok
  subst her
  have hmem : ∀ i ∈ intRange 1 (days - 1), 1 ≤ i ∧ i ≤ days - 1 :=
    fun i hi => mem_intRange hi
  obtain ⟨l1, l2, g1, g2⟩ := pisLoop_shape c s1 date days (intRange 1 (days - 1))
    { s1.builder.model with prediction := { s1.builder.model.prediction with step := 0 } }
    (List.replicate days.toNat (none : Val)) (List.replicate days.toNat (none : Val)) hmem
  refine ⟨_, _, _, rfl, ?_, ?_, ?_, ?_⟩
  · rw [l1, List.length_replicate]
  · rw [l2, List.length_replicate]
  · rw [g1, pyGet_replicate_none]
  · rw [g2, pyGet_replicate_none]

/-- C4, witness instantiation of the amended theorem on the filtered
five-point engine with `date = 0`, `days = 3`. -/
theorem predictInSample_result_shape_witness :
    ∃ s1 po pv, _predictInSample idCollab filteredDLM 0 3 = (s1, .ok (po, pv))
      ∧ po.length = (3 : ℤ).toNat ∧ pv.length = (3 : ℤ).toNat
      ∧ pyGet po ((3 : ℤ) - 1) = none ∧ pyGet pv ((3 : ℤ) - 1) = none :=
  predictInSample_result_shape idCollab filteredDLM 0 3 (by decide) (by decide) (by decide)

/-- C4, counterexample: on the filtered five-point engine,
`_predictInSample(0, 1)` returns the pair of lists `([None], [None])`, each
of length 1, not of length `days - 1 = 0` as the claim states. -/
theorem predictInSample_length_cex :
    (_predictInSample idCollab filteredDLM 0 1).2 = .ok ([none], [none])
      ∧ (([ (none : Val) ].length : ℤ) ≠ (1 : ℤ) - 1) := ⟨rfl, by decide⟩

/-- C3, counterexample: on an engine with two dynamic components `a` (slot 0
of the evaluation row) and `b` (slot 1), `_constructEvaluationForPrediction`
with an override feature for `a` only and no date raises the feature error
at `b` — but slot 0 has already been overwritten with `a`'s override, so a
slice of the model's evaluation row is mutated by the rejected call. -/
theorem constructEvaluation_partial_write_cex :
    (_constructEvaluationForPrediction idCollab twoCompDLM (some [("a", [some 5])]) none).2
        = .error .featureError
      ∧ (_constructEvaluationForPrediction idCollab twoCompDLM
          (some [("a", [some 5])]) none).1.builder.model.evaluation = [some 5, some 0]
      ∧ twoCompDLM.builder.model.evaluation = [some 0, some 0]
      ∧ ([some 5, some 0] : List Val) ≠ [some 0, some 0] :=
  ⟨rfl, rfl, rfl, by decide⟩

/-- C3, amended: sequencing and range validations do precede every write,
but the fail-before-mutate policy does not extend to the evaluation row: a
`_constructEvaluationForPrediction` call that raises leaves the ledger, the
observed series and every ModelState field other than the evaluation row
unchanged, while the evaluation row itself may retain slice writes for
components processed before the failing one. -/
theorem constructEvaluation_error_mutation_scope (c : Collab) (s : DLM)
    (fd : Option FeatDict) (date : Option ℤ) (s1 : DLM) (e : Err)
    (h : _constructEvaluationForPrediction c s fd date = (s1, .error e)) :
    s1.result = s.result ∧ s1.data = s.data
      ∧ s1.builder.model
          = { s.builder.model with evaluation := s1.builder.model.evaluation } := by
  cases fd with
  | none =>
    cases date with
    | none =>
      simp only [_constructEvaluationForPrediction] at h
      injection h with ha hb
      subst ha
      exact ⟨rfl, rfl, rfl⟩
    | some dt =>
      simp only [_constructEvaluationForPrediction] at h
      exact absurd (congrArg Prod.snd h) (by simp)
  | some f =>
    simp only [_constructEvaluationForPrediction] at h
    rcases h1 : (applyComps s.builder.componentIndex f date s.builder.dynamicComponents
        s.builder.model.evaluation).2 with _ | e1
    · rw [h1] at h
      rcases h2 : (applyComps s.builder.componentIndex f date s.builder.automaticComponents
          (applyComps s.builder.componentIndex f date s.builder.dynamicComponents
            s.builder.model.evaluation).1).2 with _ | e2
      · rw [h2] at h
        exact absurd (congrArg Prod.snd h) (by simp)
      · rw [h2] at h
        injection h with ha hb
        subst ha
        exact ⟨rfl, rfl, rfl⟩
    · rw [h1] at h
      injection h with ha hb
      subst ha
      exact ⟨rfl, rfl, rfl⟩

/-- C3, witness instantiation of the amended theorem at the rejected
two-component call. -/
theorem constructEvaluation_error_mutation_scope_witness :
    ((_constructEvaluationForPrediction idCollab twoCompDLM
        (some [("a", [some 5])]) none).1).result = twoCompDLM.result
      ∧ ((_constructEvaluationForPrediction idCollab twoCompDLM
          (some [("a", [some 5])]) none).1).data = twoCompDLM.data
      ∧ ((_constructEvaluationForPrediction idCollab twoCompDLM
          (some [("a", [some 5])]) none).1).builder.model
        = { twoCompDLM.builder.model with
            evaluation := ((_constructEvaluationForPrediction idCollab twoCompDLM
              (some [("a", [some 5])]) none).1).builder.model.evaluation } :=
  constructEvaluation_error_mutation_scope idCollab twoCompDLM
    (some [("a", [some 5])]) none _ .featureError rfl

theorem oneDayAhead_cursor (c : Collab) (s : DLM) (date : ℤ) (fd : Option FeatDict)
    (s1 : DLM) (rv : Val × Val)
    (h : _oneDayAheadPredict c s date fd = (s1, .ok rv)) :
    ∃ o, s1.result.predictStatus = some (date, date + 1, [o]) := by
  unfold _oneDayAheadPredict at h
  split at h
  · exact absurd (congrArg Prod.snd h) (by simp)
  · rcases hm : _setModelStatus c s date with ⟨s2, er⟩
    rw [hm] at h
    cases er with
    | error e => exact absurd (congrArg Prod.snd h) (by simp)
    | ok a =>
      dsimp only at h
      rcases hc : _constructEvaluationForPrediction c s2 fd (some (date + 1)) with ⟨s3, er2⟩
      rw [hc] at h
      cases er2 with
      | error e => exact absurd (congrArg Prod.snd h) (by simp)
      | ok b =>
        dsimp only at h
        have hs1 := congrArg Prod.fst h
        dsimp only at hs1
        subst hs1
        exact ⟨_, rfl⟩

theorem continuePredict_cursor (c : Collab) (s : DLM) (fd : Option FeatDict)
    (b cur : ℤ) (seq : List Val) (s1 : DLM) (rv : Val × Val)
    (hps : s.result.predictStatus = some (b, cur, seq))
    (h : _continuePredict c s fd = (s1, .ok rv)) :
    ∃ o, s1.result.predictStatus = some (b, cur + 1, seq ++ [o]) := by
  unfold _continuePredict at h
  rw [hps] at h
  dsimp only at h
  rcases har : arFeatures seq s.builder.automaticComponents fd with e | fd2
  · rw [har] at h
    exact absurd (congrArg Prod.snd h) (by simp)
  · rw [har] at h
    dsimp only at h
    rcases hc : _constructEvaluationForPrediction c s fd2 (some (cur + 1)) with ⟨s3, er2⟩
    rw [hc] at h
    cases er2 with
    | error e => exact absurd (congrArg Prod.snd h) (by simp)
    | ok u =>
      dsimp only at h
      have hs1 := congrArg Prod.fst h
      dsimp only at hs1
      subst hs1
      exact ⟨_, rfl⟩

/-- C6: forecast-cursor monotonicity.  After a successful
`_oneDayAheadPredict(date)` followed by `m` successful `_continuePredict`
calls, the cursor reads `(date, date + 1 + m, seq)` with `seq` of length
`m + 1`: each `_continuePredict` call advances `currentDate` by exactly 1
and appends exactly one forecast to the sequence. -/
theorem forecast_cursor_monotone (c : Collab) (s : DLM) (date : ℤ)
    (fd : Option FeatDict) (s1 : DLM) (rv : Val × Val) (m : ℕ) (s2 : DLM)
    (h1 : _oneDayAheadPredict c s date fd = (s1, .ok rv))
    (h2 : contN c m s1 = some s2) :
    ∃ seq, s2.result.predictStatus = some (date, date + 1 + (m : ℤ), seq)
      ∧ seq.length = m + 1 := by
  induction m generalizing s2 with
  | zero =>
    simp only [contN] at h2
    have hss := Option.some.inj h2
    subst hss
    obtain ⟨o, ho⟩ := oneDayAhead_cursor c s date fd s1 rv h1
    refine ⟨[o], ?_, rfl⟩
    rw [ho]
    norm_num
  | succ k ih =>
    simp only [contN] at h2
    rcases hk : contN c k s1 with _ | sk
    · rw [hk] at h2
      exact absurd h2 (by simp)
    · rw [hk] at h2
      dsimp only at h2
      rcases hc : _continuePredict c sk none with ⟨sk2, er⟩
      rw [hc] at h2
      cases er with
      | error e => exact absurd h2 (by simp)
      | ok r =>
        have hss := Option.some.inj h2
        subst hss
        obtain ⟨seqk, hseqk, hlen⟩ := ih sk hk
        obtain ⟨o, ho⟩ := continuePredict_cursor c sk none date (date + 1 + (k : ℤ))
          seqk sk2 r hseqk hc
        refine ⟨seqk ++ [o], ?_, ?_⟩
        · rw [ho]
          have harith : date + 1 + (k : ℤ) + 1 = date + 1 + ((k + 1 : ℕ) : ℤ) := by
            push_cast
            ring
          rw [harith]
        · rw [List.length_append, hlen]
          rfl

/-- C6, witness instantiation: on the filtered five-point engine,
`_oneDayAheadPredict(2)` followed by two successful `_continuePredict` calls
leaves the cursor at `(2, 2 + 1 + 2, seq)` with `seq` of length 3. -/
theorem forecast_cursor_monotone_witness :
    ∃ seq,
      ((contN idCollab 2 ((_oneDayAheadPredict idCollab filteredDLM 2 none).1)).getD
          baseDLM).result.predictStatus
        = some (2, 2 + 1 + ((2 : ℕ) : ℤ), seq) ∧ seq.length = 2 + 1 :=
  forecast_cursor_monotone idCollab filteredDLM 2 none
    ((_oneDayAheadPredict idCollab filteredDLM 2 none).1) (some 7, some 8) 2
    ((contN idCollab 2 ((_oneDayAheadPredict idCollab filteredDLM 2 none).1)).getD baseDLM)
    rfl rfl

theorem smootherEnd_nonneg (start : ℤ) (days : Option ℤ) : 0 ≤ smootherEnd start days := by
  cases days with
  | none => exact le_refl 0
  | some d =>
    simp only [smootherEnd]
    exact le_max_right _ _

theorem bsLoop_smoothed_at (c : Collab) (s0 : DLM) (i : ℤ) (hi : 0 ≤ i) :
    ∀ (ts : List ℤ) (m : Model) (r : Result),
      (∀ j ∈ ts, 0 ≤ j ∧ j ≠ i) →
      pyGet ((bsLoop c s0 ts m r).2).smoothedObs i = pyGet r.smoothedObs i
        ∧ pyGet ((bsLoop c s0 ts m r).2).smoothedObsVar i = pyGet r.smoothedObsVar i
        ∧ pyGet ((bsLoop c s0 ts m r).2).smoothedState i = pyGet r.smoothedState i
        ∧ pyGet ((bsLoop c s0 ts m r).2).smoothedCov i = pyGet r.smoothedCov i := by
  intro ts
  induction ts with
  | nil => intro m r _; exact ⟨rfl, rfl, rfl, rfl⟩
  | cons day rest ih =>
    intro m r hmem
    have hd := hmem day (List.mem_cons_self day rest)
    have hrest : ∀ j ∈ rest, 0 ≤ j ∧ j ≠ i :=
      fun j hj => hmem j (List.mem_cons_of_mem day hj)
    obtain ⟨e1, e2, e3, e4⟩ := ih (bsModel c s0 day m r)
      (_copy (bsModel c s0 day m r) r day "backwardSmoother") hrest
    simp only [bsLoop]
    refine ⟨?_, ?_, ?_, ?_⟩
    · rw [e1, copy_bs_eq]
      exact pyGet_pySet_ne _ _ _ _ hi hd.1 (Ne.symm hd.2)
    · rw [e2, copy_bs_eq]
      exact pyGet_pySet_ne _ _ _ _ hi hd.1 (Ne.symm hd.2)
    · rw [e3, copy_bs_eq]
      exact pyGet_pySet_ne _ _ _ _ hi hd.1 (Ne.symm hd.2)
    · rw [e4, copy_bs_eq]
      exact pyGet_pySet_ne _ _ _ _ hi hd.1 (Ne.symm hd.2)

/-- C8: smoother identity at the boundary.  For a successfully smoothed
`start` that is the final series index or with `ignoreFuture` set, the
smoothed observation, observation variance, state and covariance stored in
the ledger at `start` after the call are exactly the filtered values stored
there. -/
theorem backwardSmoother_boundary_identity (c : Collab) (s : DLM) (start : ℤ)
    (days : Option ℤ) (ign : Bool)
    (h0 : 0 ≤ start) (h2 : start ≤ s.result.filteredSteps.2)
    (h3 : start = s.n - 1 ∨ ign = true)
    (hl1 : start < (s.result.smoothedObs.length : ℤ))
    (hl2 : start < (s.result.smoothedObsVar.length : ℤ))
    (hl3 : start < (s.result.smoothedState.length : ℤ))
    (hl4 : start < (s.result.smoothedCov.length : ℤ)) :
    pyGet ((_backwardSmoother c s (some start) days ign).1).result.smoothedObs start
        = pyGet s.result.filteredObs start
      ∧ pyGet ((_backwardSmoother c s (some start) days ign).1).result.smoothedObsVar start
        = pyGet s.result.filteredObsVar start
      ∧ pyGet ((_backwardSmoother c s (some start) days ign).1).result.smoothedState start
        = pyGet s.result.filteredState start
      ∧ pyGet ((_backwardSmoother c s (some start) days ign).1).result.smoothedCov start
        = pyGet s.result.filteredCov start := by
  simp only [_backwardSmoother, Option.getD]
  rw [if_neg (by omega)]
  simp only [if_pos h3]
  by_cases hlt : start - 1 < smootherEnd start days
  · rw [if_pos hlt]
    refine ⟨?_, ?_, ?_, ?_⟩
    · exact pyGet_pySet_self _ _ _ h0 hl1
    · exact pyGet_pySet_self _ _ _ h0 hl2
    · exact pyGet_pySet_self _ _ _ h0 hl3
    · exact pyGet_pySet_self _ _ _ h0 hl4
  · rw [if_neg hlt]
    have hmem : ∀ j ∈ (intRange (smootherEnd start days) (start - 1)).reverse,
        0 ≤ j ∧ j ≠ start := by
      intro j hj
      rw [List.mem_reverse] at hj
      have hb := mem_intRange hj
      have hnn := smootherEnd_nonneg start days
      constructor <;> omega
    refine ⟨?_, ?_, ?_, ?_⟩
    · rw [(bsLoop_smoothed_at c s start h0 _ _ _ hmem).1]
      exact pyGet_pySet_self _ _ _ h0 hl1
    · rw [(bsLoop_smoothed_at c s start h0 _ _ _ hmem).2.1]
      exact pyGet_pySet_self _ _ _ h0 hl2
    · rw [(bsLoop_smoothed_at c s start h0 _ _ _ hmem).2.2.1]
      exact pyGet_pySet_self _ _ _ h0 hl3
    · rw [(bsLoop_smoothed_at c s start h0 _ _ _ hmem).2.2.2]
      exact pyGet_pySet_self _ _ _ h0 hl4

/-- C8, witness instantiation: smoothing the filtered five-point engine from
its final index reproduces the filtered snapshot at index 4 in the smoothed
series. -/
theorem backwardSmoother_boundary_identity_witness :
    pyGet ((_backwardSmoother idCollab filteredDLM (some 4) none false).1).result.smoothedObs 4
        = pyGet filteredDLM.result.filteredObs 4
      ∧ pyGet ((_backwardSmoother idCollab filteredDLM
          (some 4) none false).1).result.smoothedObsVar 4
        = pyGet filteredDLM.result.filteredObsVar 4
      ∧ pyGet ((_backwardSmoother idCollab filteredDLM
          (some 4) none false).1).result.smoothedState 4
        = pyGet filteredDLM.result.filteredState 4
      ∧ pyGet ((_backwardSmoother idCollab filteredDLM
          (some 4) none false).1).result.smoothedCov 4
        = pyGet filteredDLM.result.filteredCov 4 :=
  backwardSmoother_boundary_identity idCollab filteredDLM 4 none false
    (by decide) (by decide) (by decide) (by decide) (by decide) (by decide) (by decide)

/-- C9: round-trip save/restore.  For a date `d` inside the filtered range
(and in range of the ledger series), `_setModelStatus(d)` succeeds — it
restores ModelState from the ledger via `_reverseCopy` — and immediately
copying ModelState back with `_copy(..., d, 'forwardFilter')` reproduces the
ledger exactly: every tracked field (filtered and predicted observation /
variance / state / covariance, noise variance, degrees of freedom) is
written back with the value it already held, leaving the ledger equal to the
original. -/
theorem setModelStatus_roundTrip (c : Collab) (s : DLM) (d : ℤ)
    (h1 : s.result.filteredSteps.1 ≤ d) (h2 : d ≤ s.result.filteredSteps.2)
    (h3 : s.result.inRange d) :
    (_setModelStatus c s d).2 = .ok ()
      ∧ _copy ((_setModelStatus c s d).1).builder.model
          ((_setModelStatus c s d).1).result d "forwardFilter" = s.result := by
  obtain ⟨hd0, hr1, hr2, hr3, hr4, hr5, hr6, hr7, hr8, hr9, hr10⟩ := h3
  refine ⟨setModelStatus_ok c s d h1 h2, ?_⟩
  simp only [_setModelStatus]
  rw [if_neg (by omega)]
  split
  all_goals
    rw [copy_ff_eq]
    simp only [_reverseCopy]
    rw [pySet_pyGet_self s.result.filteredObs d hd0 hr1,
        pySet_pyGet_self s.result.predictedObs d hd0 hr2,
        pySet_pyGet_self s.result.filteredObsVar d hd0 hr3,
        pySet_pyGet_self s.result.predictedObsVar d hd0 hr4,
        pySet_pyGet_self s.result.filteredState d hd0 hr5,
        pySet_pyGet_self s.result.predictedState d hd0 hr6,
        pySet_pyGet_self s.result.filteredCov d hd0 hr7,
        pySet_pyGet_self s.result.predictedCov d hd0 hr8,
        pySet_pyGet_self s.result.noiseVar d hd0 hr9,
        pySet_pyGet_self s.result.df d hd0 hr10]

/-- C9, witness instantiation at date 3 of the filtered five-point engine. -/
theorem setModelStatus_roundTrip_witness :
    (_setModelStatus idCollab filteredDLM 3).2 = .ok ()
      ∧ _copy ((_setModelStatus idCollab filteredDLM 3).1).builder.model
          ((_setModelStatus idCollab filteredDLM 3).1).result 3 "forwardFilter"
        = filteredDLM.result :=
  setModelStatus_roundTrip idCollab filteredDLM 3 (by decide) (by decide) (by decide)

/-- C10: when `days` exceeds `start + 1`, the smoothing end index of
`_backwardSmoother` is clamped to 0 (`end = max(start - days + 1, 0)`),
the index is never below 0 for any `days`, and requesting more days than are
available before `start` is not an error: the call still returns normally
(given `start` has been filtered). -/
theorem backwardSmoother_end_clamped (c : Collab) (s : DLM) (start days : ℤ) (ign : Bool)
    (h2 : start ≤ s.result.filteredSteps.2) (h3 : start + 1 < days) :
    smootherEnd start (some days) = 0
      ∧ (∀ d : ℤ, 0 ≤ smootherEnd start (some d))
      ∧ (_backwardSmoother c s (some start) (some days) ign).2 = .ok () := by
  refine ⟨?_, fun d => smootherEnd_nonneg start (some d), ?_⟩
  · simp only [smootherEnd]
    omega
  · simp only [_backwardSmoother, Option.getD]
    rw [if_neg (by omega)]
    by_cases hcond : start = s.n - 1 ∨ ign = true
    · simp only [if_pos hcond]
      by_cases hlt : start - 1 < smootherEnd start (some days)
      · rw [if_pos hlt]
      · rw [if_neg hlt]
    · simp only [if_neg hcond]
      by_cases hlt : start < smootherEnd start (some days)
      · rw [if_pos hlt]
      · rw [if_neg hlt]

/-- C10, witness instantiation with `start = 2`, `days = 10` on the filtered
five-point engine. -/
theorem backwardSmoother_end_clamped_witness :
    smootherEnd 2 (some 10) = 0
      ∧ (∀ d : ℤ, 0 ≤ smootherEnd 2 (some d))
      ∧ (_backwardSmoother idCollab filteredDLM (some 2) (some 10) true).2 = .ok () :=
  backwardSmoother_end_clamped idCollab filteredDLM 2 10 true (by decide) (by decide)

theorem setModelStatus_error_state (c : Collab) (s : DLM) (d : ℤ) (s1 : DLM) (e : Err)
    (h : _setModelStatus c s d = (s1, .error e)) : s1 = s := by
  unfold _setModelStatus at h
  split at h
  · injection h with h1 h2
    exact h1.symm
  · exact absurd (congrArg Prod.snd h) (by simp)

theorem applyComps_some_date (ci : String → ℕ × ℕ) (fd : FeatDict) (dt : ℤ) :
    ∀ (comps : List (String × Component)) (ev : List Val),
      (applyComps ci fd (some dt) comps ev).2 = none := by
  intro comps
  induction comps with
  | nil => intro ev; rfl
  | cons p rest ih =>
    intro ev
    obtain ⟨name, comp⟩ := p
    simp only [applyComps]
    rcases hd : dictGet fd name with _ | feature
    · exact ih _
    · exact ih _

theorem constructEval_some_date_ok (c : Collab) (s : DLM) (fd : Option FeatDict) (dt : ℤ) :
    (_constructEvaluationForPrediction c s fd (some dt)).2 = .ok () := by
  cases fd with
  | none => rfl
  | some f =>
    simp only [_constructEvaluationForPrediction]
    rcases h1 : (applyComps s.builder.componentIndex f (some dt) s.builder.dynamicComponents
        s.builder.model.evaluation).2 with _ | e1
    · rcases h2 : (applyComps s.builder.componentIndex f (some dt) s.builder.automaticComponents
          (applyComps s.builder.componentIndex f (some dt) s.builder.dynamicComponents
            s.builder.model.evaluation).1).2 with _ | e2
      · rfl
      · rw [applyComps_some_date] at h2
        cases h2
    · rw [applyComps_some_date] at h1
      cases h1

theorem forwardFilter_error_state (c : Collab) (s : DLM) (start : ℤ) (ed : Option ℤ)
    (sv : Save) (fg rn : Bool) (s1 : DLM) (e : Err)
    (h : _forwardFilter c s start ed sv fg rn = (s1, .error e)) : s1 = s := by
  simp only [_forwardFilter] at h
  split at h
  · exact absurd (congrArg Prod.snd h) (by simp)
  · split at h
    · exact absurd (congrArg Prod.snd h) (by simp)
    · split at h
      · injection h with h1 h2
        exact h1.symm
      · rcases hm : _setModelStatus c s (start - 1) with ⟨s2, er⟩
        rw [hm] at h
        cases er with
        | error e2 =>
          try dsimp only at h
          injection h with h1 h2
          rw [← h1]
          exact setModelStatus_error_state c s (start - 1) s2 e2 hm
        | ok a =>
          try dsimp only at h
          exact absurd (congrArg Prod.snd h) (by simp)

theorem backwardSmoother_error_state (c : Collab) (s : DLM) (sd dy : Option ℤ) (ig : Bool)
    (s1 : DLM) (e : Err) (h : _backwardSmoother c s sd dy ig = (s1, .error e)) : s1 = s := by
  obtain ⟨st, hst⟩ : ∃ st, sd.getD (s.n - 1) = st := ⟨_, rfl⟩
  simp only [_backwardSmoother, hst] at h
  split at h
  · injection h with h1 h2
    exact h1.symm
  · by_cases hcond : st = s.n - 1 ∨ ig = true
    · simp only [if_pos hcond] at h
      by_cases hlt : st - 1 < smootherEnd st dy
      · rw [if_pos hlt] at h
        exact absurd (congrArg Prod.snd h) (by simp)
      · rw [if_neg hlt] at h
        exact absurd (congrArg Prod.snd h) (by simp)
    · simp only [if_neg hcond] at h
      by_cases hlt : st < smootherEnd st dy
      · rw [if_pos hlt] at h
        exact absurd (congrArg Prod.snd h) (by simp)
      · rw [if_neg hlt] at h
        exact absurd (congrArg Prod.snd h) (by simp)

theorem predictInSample_error_state (c : Collab) (s : DLM) (date days : ℤ)
    (s1 : DLM) (e : Err) (h : _predictInSample c s date days = (s1, .error e)) : s1 = s := by
  unfold _predictInSample at h
  split at h
  · injection h with h1 h2
    exact h1.symm
  · rcases hm : _setModelStatus c s date with ⟨s2, er⟩
    rw [hm] at h
    cases er with
    | error e2 =>
      try dsimp only at h
      injection h with h1 h2
      rw [← h1]
      exact setModelStatus_error_state c s date s2 e2 hm
    | ok a =>
      try dsimp only at h
      exact absurd (congrArg Prod.snd h) (by simp)

theorem oneDayAhead_error_state (c : Collab) (s : DLM) (date : ℤ) (fd : Option FeatDict)
    (s1 : DLM) (e : Err) (h : _oneDayAheadPredict c s date fd = (s1, .error e)) : s1 = s := by
  unfold _oneDayAheadPredict at h
  split at h
  · injection h with h1 h2
    exact h1.symm
  · rcases hm : _setModelStatus c s date with ⟨s2, er⟩
    rw [hm] at h
    cases er with
    | error e2 =>
      try dsimp only at h
      injection h with h1 h2
      rw [← h1]
      exact setModelStatus_error_state c s date s2 e2 hm
    | ok a =>
      try dsimp only at h
      rcases hc : _constructEvaluationForPrediction c s2 fd (some (date + 1)) with ⟨s3, er2⟩
      have hok := constructEval_some_date_ok c s2 fd (date + 1)
      have her2 : er2 = .ok () := by
        rw [hc] at hok
        exact hok
      subst her2
      rw [hc] at h
      try dsimp only at h
      exact absurd (congrArg Prod.snd h) (by simp)

theorem continuePredict_error_state (c : Collab) (s : DLM) (fd : Option FeatDict)
    (s1 : DLM) (e : Err) (h : _continuePredict c s fd = (s1, .error e)) : s1 = s := by
  unfold _continuePredict at h
  rcases hps : s.result.predictStatus with _ | ps
  · rw [hps] at h
    dsimp only at h
    injection h with h1 h2
    exact h1.symm
  · rw [hps] at h
    dsimp only at h
    rcases haf : arFeatures ps.2.2 s.builder.automaticComponents fd with e2 | fd2
    · rw [haf] at h
      dsimp only at h
      injection h with h1 h2
      exact h1.symm
    · rw [haf] at h
      dsimp only at h
      rcases hc : _constructEvaluationForPrediction c s fd2 (some (ps.2.1 + 1)) with ⟨s3, er2⟩
      have hok := constructEval_some_date_ok c s fd2 (ps.2.1 + 1)
      have her2 : er2 = .ok () := by
        rw [hc] at hok
        exact hok
      subst her2
      rw [hc] at h
      try dsimp only at h
      exact absurd (congrArg Prod.snd h) (by simp)

/-- C3, amended: fail-before-mutate holds for every engine operation except
for the evaluation row inside `_constructEvaluationForPrediction`.  A
`_forwardFilter`, `_backwardSmoother`, `_predictInSample`,
`_setModelStatus`, `_oneDayAheadPredict` or `_continuePredict` call that
raises returns with the engine state exactly as it was — no field of
ModelState or of the ResultLedger has been mutated (sequencing and range
validations precede every write, and the predictors always hand
`_constructEvaluationForPrediction` a concrete date, for which it never
raises).  A `_constructEvaluationForPrediction` call that raises leaves the
ledger, the observed series and every ModelState field other than the
evaluation row unchanged, but evaluation-row slices of components processed
before the failing one may already have been overwritten. -/
theorem engine_fail_before_mutate (c : Collab) (s : DLM) :
    (∀ (start : ℤ) (ed : Option ℤ) (sv : Save) (fg rn : Bool) (s1 : DLM) (e : Err),
       _forwardFilter c s start ed sv fg rn = (s1, .error e) → s1 = s)
  ∧ (∀ (sd dy : Option ℤ) (ig : Bool) (s1 : DLM) (e : Err),
       _backwardSmoother c s sd dy ig = (s1, .error e) → s1 = s)
  ∧ (∀ (date days : ℤ) (s1 : DLM) (e : Err),
       _predictInSample c s date days = (s1, .error e) → s1 = s)
  ∧ (∀ (date : ℤ) (s1 : DLM) (e : Err),
       _setModelStatus c s date = (s1, .error e) → s1 = s)
  ∧ (∀ (date : ℤ) (fd : Option FeatDict) (s1 : DLM) (e : Err),
       _oneDayAheadPredict c s date fd = (s1, .error e) → s1 = s)
  ∧ (∀ (fd : Option FeatDict) (s1 : DLM) (e : Err),
       _continuePredict c s fd = (s1, .error e) → s1 = s)
  ∧ (∀ (fd : Option FeatDict) (date : Option ℤ) (s1 : DLM) (e : Err),
       _constructEvaluationForPrediction c s fd date = (s1, .error e) →
         s1.result = s.result ∧ s1.data = s.data
           ∧ s1.builder.model
               = { s.builder.model with evaluation := s1.builder.model.evaluation }) :=
  ⟨fun start ed sv fg rn s1 e h => forwardFilter_error_state c s start ed sv fg rn s1 e h,
   fun sd dy ig s1 e h => backwardSmoother_error_state c s sd dy ig s1 e h,
   fun date days s1 e h => predictInSample_error_state c s date days s1 e h,
   fun date s1 e h => setModelStatus_error_state c s date s1 e h,
   fun date fd s1 e h => oneDayAhead_error_state c s date fd s1 e h,
   fun fd s1 e h => continuePredict_error_state c s fd s1 e h,
   fun fd date s1 e h => constructEvaluation_error_mutation_scope c s fd date s1 e h⟩

/-- C3, witness instantiation: three rejected calls exercised concretely —
a gapped `_forwardFilter` and a cursor-less `_continuePredict` return the
engine state unchanged, and the rejected two-component
`_constructEvaluationForPrediction` call leaves the ledger unchanged. -/
theorem engine_fail_before_mutate_witness :
    ((_forwardFilter idCollab baseDLM 2 (some 4) Save.all false false).1 = baseDLM)
      ∧ ((_continuePredict idCollab baseDLM none).1 = baseDLM)
      ∧ (((_constructEvaluationForPrediction idCollab twoCompDLM
            (some [("a", [some 5])]) none).1).result = twoCompDLM.result) :=
  ⟨(engine_fail_before_mutate idCollab baseDLM).1 2 (some 4) Save.all false false _
      .sequencingError rfl,
   (engine_fail_before_mutate idCollab baseDLM).2.2.2.2.2.1 none _ .sequencingError rfl,
   ((engine_fail_before_mutate idCollab twoCompDLM).2.2.2.2.2.2
      (some [("a", [some 5])]) none _ .featureError rfl).1⟩
